import Mathlib

/-!
Verification development for the lazy entity-reference wrapper
(src/packages/core/src/entity/Reference.ts).

The embedding models the mutable object graph as an explicit `World`:
a store of entity handles (each carrying metadata, field values, an
initialization flag and the canonical-reference cache kept on its helper)
and a store of Reference instances (each carrying the single wrapped
value). Operations of the Reference class become functions from `World`
to `World` (with a result where the source returns one). External
collaborators that live outside src (the wrapped-entity helper, the
entity factory, serialization) are modelled from the spec and marked as
such in their doc comments. The counters `fetchCount` and `factoryCalls`
record invocations of the init delegate and of the entity factory, so
that claims about "no fetch issued" are statable.
-/

/-- Entity metadata as consumed by the Reference class: declared type
name, the ordered primary-key field names, and the optional distinct
serialized-primary-key field name. -/
structure Meta where
  name : String
  primaryKeys : List String
  serializedPrimaryKey : Option String

/-- State of one entity handle together with its helper bookkeeping:
field values, the initialization flag, the canonical-reference cache
(the helper slot that `set` deletes), the loaded-property set and the
snapshot taken at construction from a bare primary key. -/
structure HandleState where
  meta : Meta
  fields : String → Nat
  initialized : Bool
  canonicalRef : Option Nat
  loadedProperties : List String
  originalEntityData : Option (List (String × Nat))

/-- A runtime value as seen by the Reference API: null, undefined, a raw
entity handle (by id into the handle store) or a Reference instance (by
id into the reference store). -/
inductive Val where
  | vnull : Val
  | vundef : Val
  | handle : Nat → Val
  | ref : Nat → Val
deriving DecidableEq, Repr

/-- The world: handle store, reference store (each reference id maps to
the single wrapped value, the `entity` field of the instance), allocation
counters, and invocation counters for the init delegate and the entity
factory. -/
structure World where
  handles : Nat → HandleState
  nextHandle : Nat
  refs : Nat → Val
  nextRef : Nat
  fetchCount : Nat
  factoryCalls : Nat

/-- Pointwise update of a store. -/
def updateFn {α : Type} (f : Nat → α) (i : Nat) (a : α) : Nat → α :=
  fun j => if j = i then a else f j

namespace Reference

/-- Translation of Reference.isReference: `data && !!data.__reference`.
Null and undefined fail the truthiness guard; a raw handle does not carry
the `__reference` marker (that marker lives on the Reference prototype);
a Reference instance carries it. -/
def isReference : Val → Bool
  | Val.ref _ => true
  | _ => false

/-- Translation of Reference.unwrapReference: returns `ref.unwrap()` when
`isReference` holds, otherwise the value unchanged. -/
def unwrapReference (w : World) (v : Val) : Val :=
  match v with
  | Val.ref r => w.refs r
  | v => v

/-- The handle id wrapped by a reference. In the source, `helper` applied
to a non-entity value throws; the claims only reach this on entity
values, where the fallback branch is irrelevant. -/
def entityHandle (w : World) (r : Nat) : Nat :=
  match w.refs r with
  | Val.handle h => h
  | _ => 0

/-- Translation of Reference.set: assign `unwrapReference(value)` as the
new wrapped value, then delete the canonical-reference cache on the
helper of that newly wrapped handle. -/
def set (w : World) (r : Nat) (v : Val) : World :=
  let u := unwrapReference w v
  let w1 : World := { w with refs := updateFn w.refs r u }
  match u with
  | Val.handle h =>
      { w1 with handles := updateFn w1.handles h { w1.handles h with canonicalRef := none } }
  | _ => w1

/-- Translation of the Reference constructor: allocate a fresh instance
and run `this.set(entity)`. The per-primary-key accessors that the
constructor installs are modelled by `pkAccessor` below, which forwards
to the currently wrapped handle exactly as the installed getters do. -/
def construct (w : World) (v : Val) : World × Nat :=
  let r := w.nextRef
  (set { w with nextRef := r + 1 } r v, r)

/-- Translation of an identifier accessor installed by the constructor:
`get() { return this.entity[primaryKey]; }` — a pure read of the live
wrapped handle in the current world. -/
def pkAccessor (w : World) (r : Nat) (k : String) : Nat :=
  (w.handles (entityHandle w r)).fields k

/-- Translation of Reference.unwrap: returns the wrapped value. -/
def unwrap (w : World) (r : Nat) : Val :=
  w.refs r

/-- Translation of Reference.isInitialized: forwards to the initialized
flag of the wrapped handle. -/
def isInitialized (w : World) (r : Nat) : Bool :=
  (w.handles (entityHandle w r)).initialized

end Reference

/-- Modelled from the spec: the helper operation getPrimaryKey of the
wrapped-entity helper (not under src) returns the primary-key value of
the handle, read from its first declared primary-key field. -/
def getPrimaryKey (w : World) (h : Nat) : Nat :=
  (w.handles h).fields ((w.handles h).meta.primaryKeys.headD "")

/-- Modelled from the spec: the helper operation getSerializedPrimaryKey
(not under src) renders the primary-key value of the handle in its
serialized string form. -/
def getSerializedPrimaryKey (w : World) (h : Nat) : String :=
  toString (getPrimaryKey w h)

/-- Modelled from the spec: the helper operation toReference (not under
src) returns the cached canonical Reference for the handle, creating one
through the Reference constructor and caching it when none exists. -/
def toReference (w : World) (h : Nat) : World × Nat :=
  match (w.handles h).canonicalRef with
  | some r => (w, r)
  | none =>
      let p := Reference.construct w (Val.handle h)
      ({ p.1 with
          handles := updateFn p.1.handles h { p.1.handles h with canonicalRef := some p.2 } },
       p.2)

/-- Modelled from the spec: the init delegate of the wrapped-entity
helper (not under src) performs the fetch and marks the handle
initialized; the success path is modelled. `fetchCount` counts delegate
invocations. -/
def initDelegate (w : World) (h : Nat) : World :=
  { w with
      handles := updateFn w.handles h { w.handles h with initialized := true },
      fetchCount := w.fetchCount + 1 }

namespace Reference

/-- Translation of Reference.create: unwrap the argument, obtain the
canonical Reference from the helper of the handle, and re-point it when
its currently wrapped value differs from the unwrapped input. Returns
none where the source would throw in the helper on a non-entity value. -/
def create (w : World) (v : Val) : Option (World × Nat) :=
  match unwrapReference w v with
  | Val.handle h =>
      let p := toReference w h
      if p.1.refs p.2 ≠ Val.handle h then
        some (set p.1 p.2 (Val.handle h), p.2)
      else
        some p
  | _ => none

/-- Translation of Reference.getEntity: throws a not-initialized error
naming the declared type and the primary key when the wrapped handle is
not initialized, otherwise returns the wrapped handle. -/
def getEntity (w : World) (r : Nat) : Except String Val :=
  if isInitialized w r then
    Except.ok (w.refs r)
  else
    Except.error ("Reference<" ++ (w.handles (entityHandle w r)).meta.name ++ "> "
      ++ toString (getPrimaryKey w (entityHandle w r)) ++ " not initialized")

/-- Translation of Reference.getProperty: `this.getEntity()[prop]`. -/
def getProperty (w : World) (r : Nat) (k : String) : Except String Nat :=
  (getEntity w r).map (fun v =>
    (w.handles (match v with | Val.handle h => h | _ => 0)).fields k)

end Reference

/-- Argument of Reference.load: no argument, an options object, or a
property key. -/
inductive LoadArg where
  | noArg : LoadArg
  | options : LoadArg
  | prop : String → LoadArg
deriving DecidableEq, Repr

/-- Result of Reference.load: the whole wrapped entity or a single field
value. -/
inductive LoadResult where
  | entity : Val → LoadResult
  | value : Nat → LoadResult
deriving DecidableEq, Repr

/-- Translation of the `opts.prop` truthiness test in load: a property
key was requested iff the argument is a key and the key is a truthy
(non-empty) string; an options object carries no `prop` entry. -/
def optsProp : LoadArg → Option String
  | LoadArg.prop k => if k = "" then none else some k
  | _ => none

namespace Reference

/-- Translation of Reference.load: when the wrapped handle is not
initialized, await the init delegate of its helper; then return the
requested field value, or the whole wrapped entity when no property key
was requested. -/
def load (w : World) (r : Nat) (a : LoadArg) : World × LoadResult :=
  let w1 := if isInitialized w r then w else initDelegate w (entityHandle w r)
  match optsProp a with
  | some k => (w1, LoadResult.value ((w1.handles (entityHandle w1 r)).fields k))
  | none => (w1, LoadResult.entity (w1.refs r))

end Reference

/-- Modelled from the spec: the serialization operation of the wrapped
handle itself (wrap(entity).toJSON, not under src), a function of the
handle state and of the forwarded arguments. -/
def handleToJSON (w : World) (h : Nat) (args : List Nat) : String :=
  (w.handles h).meta.name ++ "/" ++ getSerializedPrimaryKey w h ++ "/" ++ toString args

namespace Reference

/-- Translation of Reference.toJSON: `wrap(this.entity).toJSON(...args)`,
a pure delegation to the serialization of the wrapped handle with the
same arguments. -/
def toJSON (w : World) (r : Nat) (args : List Nat) : String :=
  handleToJSON w (entityHandle w r) args

end Reference

/-- Modelled from the spec: EntityFactory.createReference (not under src)
produces a fresh uninitialized handle whose identifier fields are set
from the given primary key and whose other fields are not loaded.
`factoryCalls` counts factory invocations. -/
def factoryCreateReference (w : World) (t : Meta) (pk : Nat) : World × Nat :=
  let h := w.nextHandle
  ({ w with
      nextHandle := h + 1,
      factoryCalls := w.factoryCalls + 1,
      handles := updateFn w.handles h
        { meta := t,
          fields := fun k => if t.primaryKeys.contains k then pk else 0,
          initialized := false,
          canonicalRef := none,
          loadedProperties := [],
          originalEntityData := none } },
   h)

/-- Modelled from the spec: getComparator().prepareEntity (not under src)
captures a snapshot of the current field values for change tracking. -/
def prepareEntity (w : World) (h : Nat) : List (String × Nat) :=
  (w.handles h).meta.primaryKeys.map (fun k => (k, (w.handles h).fields k))

namespace Reference

/-- Translation of Reference.createNakedFromPK: build an uninitialized
handle through the entity factory, mark every primary-key field as
loaded, and store the snapshot of the current entity data. -/
def createNakedFromPK (w : World) (t : Meta) (pk : Nat) : World × Nat :=
  let p := factoryCreateReference w t pk
  ({ p.1 with
      handles := updateFn p.1.handles p.2
        { p.1.handles p.2 with
            loadedProperties :=
              (p.1.handles p.2).loadedProperties ++ (p.1.handles p.2).meta.primaryKeys,
            originalEntityData := some (prepareEntity p.1 p.2) } },
   p.2)

end Reference

/-- Argument of the free function rel: null, undefined, an already
persisted entity, or a bare identifier. -/
inductive PkArg where
  | pnull : PkArg
  | pundef : PkArg
  | pentity : Nat → PkArg
  | pid : Nat → PkArg
deriving DecidableEq, Repr

/-- Modelled from the spec: Utils.isEntity (not under src) recognizes a
persisted entity instance. -/
def isEntity : PkArg → Bool
  | PkArg.pentity _ => true
  | _ => false

/-- The value returned unchanged by rel on its pass-through branch. -/
def pkArgVal : PkArg → Val
  | PkArg.pnull => Val.vnull
  | PkArg.pundef => Val.vundef
  | PkArg.pentity h => Val.handle h
  | PkArg.pid _ => Val.vundef

/-- Translation of the free function rel: when pk is loosely equal to
null (null or undefined) or is already an entity, return it unchanged;
otherwise build a naked handle from the bare identifier. -/
def rel (w : World) (t : Meta) (pk : PkArg) : World × Val :=
  if pk = PkArg.pnull ∨ pk = PkArg.pundef ∨ isEntity pk then
    (w, pkArgVal pk)
  else
    match pk with
    | PkArg.pid n =>
        let p := Reference.createNakedFromPK w t n
        (p.1, Val.handle p.2)
    | pk => (w, pkArgVal pk)

/-- Well-formedness of a world: every Reference instance wraps a raw
handle, never another Reference, null or undefined. Every mutation of a
wrapped value in the source goes through set, which unwraps first, so
this is an invariant of the API. -/
def WF (w : World) : Prop :=
  ∀ i, ∃ h, w.refs i = Val.handle h

/-- Sample metadata of an entity type with a single primary key. -/
def sampleMeta : Meta :=
  { name := "Author", primaryKeys := ["id"], serializedPrimaryKey := none }

/-- A sample handle state with the given primary-key value and
initialization flag. -/
def sampleHandle (pk : Nat) (b : Bool) : HandleState :=
  { meta := sampleMeta,
    fields := fun k => if k = "id" then pk else 0,
    initialized := b,
    canonicalRef := none,
    loadedProperties := ["id"],
    originalEntityData := none }

/-- A concrete sample world: handle 0 has primary key 3 and is not
initialized, handle 1 has primary key 7 and is initialized; reference 0
wraps handle 0, every other reference id wraps handle 1. -/
def w0 : World :=
  { handles := fun i => if i = 1 then sampleHandle 7 true else sampleHandle 3 false,
    nextHandle := 2,
    refs := fun i => if i = 0 then Val.handle 0 else Val.handle 1,
    nextRef := 2,
    fetchCount := 0,
    factoryCalls := 0 }

theorem WF_w0 : WF w0 := by
  intro i
  unfold w0
  dsimp only
  split
  · exact ⟨0, rfl⟩
  · exact ⟨1, rfl⟩

theorem set_refs (w : World) (r : Nat) (v : Val) :
    (Reference.set w r v).refs = updateFn w.refs r (Reference.unwrapReference w v) := by
  unfold Reference.set
  cases Reference.unwrapReference w v <;> rfl

theorem set_handles_of_handle (w : World) (r : Nat) (v : Val) (h2 : Nat)
    (hu : Reference.unwrapReference w v = Val.handle h2) :
    (Reference.set w r v).handles
      = updateFn w.handles h2 { w.handles h2 with canonicalRef := none } := by
  unfold Reference.set
  rw [hu]

theorem set_counters (w : World) (r : Nat) (v : Val) :
    (Reference.set w r v).fetchCount = w.fetchCount
      ∧ (Reference.set w r v).factoryCalls = w.factoryCalls
      ∧ (Reference.set w r v).nextHandle = w.nextHandle
      ∧ (Reference.set w r v).nextRef = w.nextRef := by
  unfold Reference.set
  cases Reference.unwrapReference w v <;> exact ⟨rfl, rfl, rfl, rfl⟩

/-- C1: after r.set(h2) the wrapped value is exactly h2, every
primary-key identifier accessor on r (including the serialized one)
reads the current field values of h2 in the live world rather than a
copy stored at construction, set flips no initialization flag of any
handle, and set issues no delegate fetch — reading an accessor is a pure
function of the world, so it cannot suspend or mutate state. -/
theorem C1_identifier_accessors_follow_set (w : World) (r : Nat) (v : Val) (h2 : Nat)
    (hu : Reference.unwrapReference w v = Val.handle h2) :
    Reference.unwrap (Reference.set w r v) r = Val.handle h2
    ∧ (∀ k, Reference.pkAccessor (Reference.set w r v) r k
        = ((Reference.set w r v).handles h2).fields k)
    ∧ getSerializedPrimaryKey (Reference.set w r v) (Reference.entityHandle (Reference.set w r v) r)
        = getSerializedPrimaryKey (Reference.set w r v) h2
    ∧ (∀ h, ((Reference.set w r v).handles h).initialized = (w.handles h).initialized)
    ∧ (Reference.set w r v).fetchCount = w.fetchCount := by
  have hr : (Reference.set w r v).refs r = Val.handle h2 := by
    rw [set_refs]
    simp [updateFn, hu]
  have he : Reference.entityHandle (Reference.set w r v) r = h2 := by
    unfold Reference.entityHandle
    rw [hr]
  refine ⟨?_, ?_, ?_, ?_, (set_counters w r v).1⟩
  · exact hr
  · intro k
    unfold Reference.pkAccessor
    rw [he]
  · rw [he]
  · intro h
    rw [set_handles_of_handle w r v h2 hu]
    unfold updateFn
    split
    · next hh => rw [hh]
    · rfl

/-- Witness for C1 at a concrete world: re-point reference 0 from handle
0 to handle 1 and read the id accessor. -/
theorem C1_witness :
    Reference.unwrapReference w0 (Val.handle 1) = Val.handle 1
    ∧ Reference.unwrap (Reference.set w0 0 (Val.handle 1)) 0 = Val.handle 1
    ∧ Reference.pkAccessor (Reference.set w0 0 (Val.handle 1)) 0 "id"
        = ((Reference.set w0 0 (Val.handle 1)).handles 1).fields "id" :=
  ⟨rfl,
   (C1_identifier_accessors_follow_set w0 0 (Val.handle 1) 1 rfl).1,
   (C1_identifier_accessors_follow_set w0 0 (Val.handle 1) 1 rfl).2.1 "id"⟩

/-- C6: set first unwraps its argument, assigns the result as the new
wrapped handle, and deletes the canonical-reference marker on that newly
wrapped handle only — the marker of every other handle (in particular
the previously wrapped one) is untouched, every other field of every
handle is unchanged, and no fetch is issued. -/
theorem C6_set_unwraps_and_clears_new_marker (w : World) (r : Nat) (v : Val) (h2 : Nat)
    (hu : Reference.unwrapReference w v = Val.handle h2) :
    (Reference.set w r v).refs r = Val.handle h2
    ∧ ((Reference.set w r v).handles h2).canonicalRef = none
    ∧ (∀ h, h ≠ h2 → ((Reference.set w r v).handles h).canonicalRef = (w.handles h).canonicalRef)
    ∧ (∀ h, ((Reference.set w r v).handles h).fields = (w.handles h).fields
        ∧ ((Reference.set w r v).handles h).initialized = (w.handles h).initialized
        ∧ ((Reference.set w r v).handles h).meta = (w.handles h).meta
        ∧ ((Reference.set w r v).handles h).loadedProperties = (w.handles h).loadedProperties
        ∧ ((Reference.set w r v).handles h).originalEntityData
            = (w.handles h).originalEntityData)
    ∧ (Reference.set w r v).fetchCount = w.fetchCount := by
  have hh := set_handles_of_handle w r v h2 hu
  refine ⟨?_, ?_, ?_, ?_, (set_counters w r v).1⟩
  · rw [set_refs]
    simp [updateFn, hu]
  · rw [hh]
    simp [updateFn]
  · intro h hne
    rw [hh]
    simp [updateFn, hne]
  · intro h
    rw [hh]
    unfold updateFn
    split
    · next he => rw [he]; exact ⟨rfl, rfl, rfl, rfl, rfl⟩
    · exact ⟨rfl, rfl, rfl, rfl, rfl⟩

/-- Witness for C6 at a concrete world: set reference 0 to a Reference
value wrapping handle 1; the marker is cleared on handle 1 and the
marker of handle 0 is untouched. -/
theorem C6_witness :
    Reference.unwrapReference w0 (Val.ref 1) = Val.handle 1
    ∧ (Reference.set w0 0 (Val.ref 1)).refs 0 = Val.handle 1
    ∧ ((Reference.set w0 0 (Val.ref 1)).handles 1).canonicalRef = none
    ∧ ((Reference.set w0 0 (Val.ref 1)).handles 0).canonicalRef
        = (w0.handles 0).canonicalRef :=
  ⟨rfl,
   (C6_set_unwraps_and_clears_new_marker w0 0 (Val.ref 1) 1 rfl).1,
   (C6_set_unwraps_and_clears_new_marker w0 0 (Val.ref 1) 1 rfl).2.1,
   (C6_set_unwraps_and_clears_new_marker w0 0 (Val.ref 1) 1 rfl).2.2.1 0 (by decide)⟩

/-- C7: in a well-formed world, unwrapReference fully strips wrapping:
its result never carries the Reference marker, on a Reference it returns
the underlying wrapped handle, and on a non-Reference it returns the
value unchanged. -/
theorem C7_unwrapReference_never_yields_reference (w : World) (x : Val) (hw : WF w) :
    Reference.isReference (Reference.unwrapReference w x) = false
    ∧ (∀ rr, x = Val.ref rr → Reference.unwrapReference w x = w.refs rr)
    ∧ (Reference.isReference x = false → Reference.unwrapReference w x = x) := by
  cases x with
  | ref rr =>
      obtain ⟨h, hh⟩ := hw rr
      refine ⟨?_, ?_, ?_⟩
      · show Reference.isReference (w.refs rr) = false
        rw [hh]
        rfl
      · intro rr2 he
        cases he
        rfl
      · intro hfalse
        cases hfalse
  | vnull =>
      refine ⟨rfl, ?_, fun _ => rfl⟩
      intro rr he
      exact Val.noConfusion he
  | vundef =>
      refine ⟨rfl, ?_, fun _ => rfl⟩
      intro rr he
      exact Val.noConfusion he
  | handle h =>
      refine ⟨rfl, ?_, fun _ => rfl⟩
      intro rr he
      exact Val.noConfusion he

/-- Witness for C7 at a concrete well-formed world and a Reference
value. -/
theorem C7_witness :
    WF w0
    ∧ Reference.isReference (Reference.unwrapReference w0 (Val.ref 0)) = false :=
  ⟨WF_w0, (C7_unwrapReference_never_yields_reference w0 (Val.ref 0) WF_w0).1⟩

/-- C9: isReference is total and returns false on null and on undefined,
because the source guards on truthiness of the value before reading the
Reference marker. -/
theorem C9_isReference_false_on_absent :
    Reference.isReference Val.vnull = false
    ∧ Reference.isReference Val.vundef = false := by
  exact ⟨rfl, rfl⟩

/-- C3: on a Reference whose wrapped handle is not initialized,
getEntity fails with the not-initialized error naming the declared type
and the serialized primary key, and getProperty (which goes through
getEntity) fails with the same error; on an initialized handle,
getEntity returns the wrapped handle without error. -/
theorem C3_getEntity_error_names_type_and_pk (w : World) (r : Nat) :
    (Reference.isInitialized w r = false →
      Reference.getEntity w r
        = Except.error ("Reference<" ++ (w.handles (Reference.entityHandle w r)).meta.name
            ++ "> " ++ getSerializedPrimaryKey w (Reference.entityHandle w r)
            ++ " not initialized")
      ∧ ∀ k, Reference.getProperty w r k
        = Except.error ("Reference<" ++ (w.handles (Reference.entityHandle w r)).meta.name
            ++ "> " ++ getSerializedPrimaryKey w (Reference.entityHandle w r)
            ++ " not initialized"))
    ∧ (Reference.isInitialized w r = true →
      Reference.getEntity w r = Except.ok (w.refs r)) := by
  constructor
  · intro hni
    have hge : Reference.getEntity w r
        = Except.error ("Reference<" ++ (w.handles (Reference.entityHandle w r)).meta.name
            ++ "> " ++ getSerializedPrimaryKey w (Reference.entityHandle w r)
            ++ " not initialized") := by
      unfold Reference.getEntity getSerializedPrimaryKey
      rw [hni]
      rfl
    refine ⟨hge, fun k => ?_⟩
    unfold Reference.getProperty
    rw [hge]
    rfl
  · intro hi
    unfold Reference.getEntity
    rw [hi]
    rfl

/-- Witness for C3 at a concrete world: reference 0 wraps the
uninitialized handle 0. -/
theorem C3_witness :
    Reference.isInitialized w0 0 = false
    ∧ Reference.getEntity w0 0
        = Except.error ("Reference<" ++ (w0.handles (Reference.entityHandle w0 0)).meta.name
            ++ "> " ++ getSerializedPrimaryKey w0 (Reference.entityHandle w0 0)
            ++ " not initialized")
    ∧ Reference.isInitialized w0 1 = true
    ∧ Reference.getEntity w0 1 = Except.ok (w0.refs 1) :=
  ⟨rfl,
   ((C3_getEntity_error_names_type_and_pk w0 0).1 rfl).1,
   rfl,
   (C3_getEntity_error_names_type_and_pk w0 1).2 rfl⟩

theorem load_fst (w : World) (r : Nat) (a : LoadArg) :
    (Reference.load w r a).1
      = if Reference.isInitialized w r then w
        else initDelegate w (Reference.entityHandle w r) := by
  unfold Reference.load
  cases h : optsProp a <;> simp [h]

theorem isInitialized_after_init (w : World) (r : Nat) :
    Reference.isInitialized (initDelegate w (Reference.entityHandle w r)) r = true := by
  have he : Reference.entityHandle (initDelegate w (Reference.entityHandle w r)) r
      = Reference.entityHandle w r := rfl
  unfold Reference.isInitialized
  rw [he]
  simp [initDelegate, updateFn]

/-- C4: load on an already-initialized Reference resolves immediately
without invoking the init delegate (the world is unchanged, hence zero
fetches, and a second load changes nothing either); load twice on an
initially uninitialized handle whose first load succeeds issues exactly
one delegate fetch. -/
theorem C4_load_fetches_at_most_once (w : World) (r : Nat) (a b : LoadArg) :
    (Reference.isInitialized w r = true →
      (Reference.load w r a).1 = w
      ∧ (Reference.load ((Reference.load w r a).1) r b).1 = w)
    ∧ (Reference.isInitialized w r = false →
      ((Reference.load ((Reference.load w r a).1) r b).1).fetchCount = w.fetchCount + 1) := by
  constructor
  · intro hi
    have h1 : (Reference.load w r a).1 = w := by rw [load_fst, hi]; rfl
    refine ⟨h1, ?_⟩
    rw [h1, load_fst, hi]
    rfl
  · intro hni
    have h1 : (Reference.load w r a).1 = initDelegate w (Reference.entityHandle w r) := by
      rw [load_fst, hni]
      rfl
    have h2 : (Reference.load (initDelegate w (Reference.entityHandle w r)) r b).1
        = initDelegate w (Reference.entityHandle w r) := by
      rw [load_fst, isInitialized_after_init]
      rfl
    rw [h1, h2]
    rfl

/-- Witness for C4 at a concrete world: reference 1 wraps the
initialized handle 1, reference 0 wraps the uninitialized handle 0. -/
theorem C4_witness :
    Reference.isInitialized w0 1 = true
    ∧ (Reference.load w0 1 LoadArg.noArg).1 = w0
    ∧ Reference.isInitialized w0 0 = false
    ∧ ((Reference.load ((Reference.load w0 0 LoadArg.noArg).1) 0 LoadArg.noArg).1).fetchCount
        = w0.fetchCount + 1 :=
  ⟨rfl,
   ((C4_load_fetches_at_most_once w0 1 LoadArg.noArg LoadArg.noArg).1 rfl).1,
   rfl,
   (C4_load_fetches_at_most_once w0 0 LoadArg.noArg LoadArg.noArg).2 rfl⟩

/-- C5: load with a requested property key returns the current value of
that field on the wrapped handle in the post-initialization world; load
with no argument, and load with an options object, return the whole
wrapped entity. -/
theorem C5_load_returns_field_or_entity (w : World) (r : Nat) (k : String) (hk : ¬ k = "") :
    (Reference.load w r (LoadArg.prop k)).2
      = LoadResult.value
          ((((Reference.load w r (LoadArg.prop k)).1).handles
            (Reference.entityHandle ((Reference.load w r (LoadArg.prop k)).1) r)).fields k)
    ∧ (Reference.load w r LoadArg.noArg).2
      = LoadResult.entity (((Reference.load w r LoadArg.noArg).1).refs r)
    ∧ (Reference.load w r LoadArg.options).2
      = LoadResult.entity (((Reference.load w r LoadArg.options).1).refs r) := by
  unfold Reference.load optsProp
  simp [hk]

/-- Witness for C5 at a concrete world: load the id field through
reference 0. -/
theorem C5_witness :
    ¬ ("id" = "")
    ∧ (Reference.load w0 0 (LoadArg.prop "id")).2
      = LoadResult.value
          ((((Reference.load w0 0 (LoadArg.prop "id")).1).handles
            (Reference.entityHandle ((Reference.load w0 0 (LoadArg.prop "id")).1) 0)).fields "id") :=
  ⟨by decide, (C5_load_returns_field_or_entity w0 0 "id" (by decide)).1⟩

/-- C8: toJSON on a Reference is exactly the serialization of the
wrapped handle with the same arguments; the wrapper contributes nothing,
so the output is identical whether or not the field was wrapped. -/
theorem C8_toJSON_delegates_to_handle (w : World) (r : Nat) (args : List Nat) (h : Nat)
    (he : w.refs r = Val.handle h) :
    Reference.toJSON w r args = handleToJSON w h args := by
  unfold Reference.toJSON Reference.entityHandle
  rw [he]

/-- Witness for C8 at a concrete world and argument list. -/
theorem C8_witness :
    w0.refs 0 = Val.handle 0
    ∧ Reference.toJSON w0 0 [1, 2] = handleToJSON w0 0 [1, 2] :=
  ⟨rfl, C8_toJSON_delegates_to_handle w0 0 [1, 2] 0 rfl⟩

/-- C10: rel returns null, undefined and already-persisted entities
unchanged with the world untouched (in particular without invoking the
entity factory), and on a bare identifier it builds exactly one fresh
uninitialized handle through the factory, with the identifier fields set
from the given primary key. -/
theorem C10_rel_passthrough_or_fresh_handle (w : World) (t : Meta) (h n : Nat) :
    rel w t PkArg.pnull = (w, Val.vnull)
    ∧ rel w t PkArg.pundef = (w, Val.vundef)
    ∧ rel w t (PkArg.pentity h) = (w, Val.handle h)
    ∧ ((rel w t (PkArg.pid n)).1).factoryCalls = w.factoryCalls + 1
    ∧ (rel w t (PkArg.pid n)).2 = Val.handle w.nextHandle
    ∧ (((rel w t (PkArg.pid n)).1).handles w.nextHandle).initialized = false
    ∧ (∀ k, t.primaryKeys.contains k = true →
        (((rel w t (PkArg.pid n)).1).handles w.nextHandle).fields k = n) := by
  have hpid : rel w t (PkArg.pid n)
      = (let p := Reference.createNakedFromPK w t n; (p.1, Val.handle p.2)) := by
    unfold rel
    rw [if_neg]
    simp [isEntity]
  refine ⟨?_, ?_, ?_, ?_, ?_, ?_, ?_⟩
  · unfold rel
    rw [if_pos]
    · rfl
    · exact Or.inl rfl
  · unfold rel
    rw [if_pos]
    · rfl
    · exact Or.inr (Or.inl rfl)
  · unfold rel
    rw [if_pos]
    · rfl
    · exact Or.inr (Or.inr rfl)
  · rw [hpid]
    simp [Reference.createNakedFromPK, factoryCreateReference]
  · rw [hpid]
    simp [Reference.createNakedFromPK, factoryCreateReference]
  · rw [hpid]
    simp [Reference.createNakedFromPK, factoryCreateReference, updateFn]
  · intro k hk
    have hk2 : k ∈ t.primaryKeys := by simpa using hk
    rw [hpid]
    simp [Reference.createNakedFromPK, factoryCreateReference, updateFn, hk2]

/-- Witness for C10: build a fresh handle from a bare identifier with
the sample metadata; the id field of the fresh handle holds the
identifier. -/
theorem C10_witness :
    sampleMeta.primaryKeys.contains "id" = true
    ∧ (((rel w0 sampleMeta (PkArg.pid 5)).1).handles w0.nextHandle).fields "id" = 5 :=
  ⟨by decide,
   (C10_rel_passthrough_or_fresh_handle w0 sampleMeta 0 5).2.2.2.2.2.2 "id" (by decide)⟩

theorem toReference_of_cached (w : World) (h r : Nat)
    (hc : (w.handles h).canonicalRef = some r) :
    toReference w h = (w, r) := by
  unfold toReference
  rw [hc]

theorem toReference_refs_of_fresh (w : World) (h : Nat)
    (hc : (w.handles h).canonicalRef = none) :
    (toReference w h).1.refs = updateFn w.refs w.nextRef (Val.handle h)
      ∧ (toReference w h).2 = w.nextRef := by
  unfold toReference
  rw [hc]
  constructor
  · show (Reference.construct w (Val.handle h)).1.refs = _
    unfold Reference.construct
    rw [set_refs]
    rfl
  · rfl

/-- Every successful create returns a wrapper whose wrapped value is the
unwrapped input, and the only wrapped values it ever writes are that
same handle, so every other reference keeps its previous wrapped
value. -/
theorem create_spec (w : World) (v : Val) (h : Nat)
    (hu : Reference.unwrapReference w v = Val.handle h) :
    ∃ p, Reference.create w v = some p
      ∧ p.1.refs p.2 = Val.handle h
      ∧ ∀ i, p.1.refs i = w.refs i ∨ p.1.refs i = Val.handle h := by
  unfold Reference.create
  rw [hu]
  dsimp only
  cases hc : (w.handles h).canonicalRef with
  | some r =>
      rw [toReference_of_cached w h r hc]
      by_cases hd : w.refs r = Val.handle h
      · refine ⟨(w, r), ?_, hd, fun i => Or.inl rfl⟩
        simp [hd]
      · refine ⟨(Reference.set w r (Val.handle h), r), ?_, ?_, ?_⟩
        · simp [hd]
        · rw [set_refs]
          simp [updateFn, Reference.unwrapReference]
        · intro i
          rw [set_refs]
          unfold updateFn
          split
          · exact Or.inr rfl
          · exact Or.inl rfl
  | none =>
      obtain ⟨hrefs, hsnd⟩ := toReference_refs_of_fresh w h hc
      have hpt : (toReference w h).1.refs (toReference w h).2 = Val.handle h := by
        rw [hrefs, hsnd]
        simp [updateFn]
      refine ⟨toReference w h, ?_, hpt, ?_⟩
      · simp [hpt]
      · intro i
        rw [hrefs]
        unfold updateFn
        split
        · exact Or.inr rfl
        · exact Or.inl rfl

/-- C2: create always returns a Reference, unwrap of the returned
Reference is the unwrapped input handle, and calling create twice on the
same handle yields wrappers that both ultimately point at that same
handle. -/
theorem C2_create_unwrap_roundtrip (w : World) (v : Val) (h : Nat)
    (hu : Reference.unwrapReference w v = Val.handle h) :
    ∃ p, Reference.create w v = some p
      ∧ Reference.unwrap p.1 p.2 = Val.handle h
      ∧ ∃ q, Reference.create p.1 (Val.handle h) = some q
        ∧ Reference.unwrap q.1 q.2 = Val.handle h
        ∧ Reference.unwrap q.1 p.2 = Val.handle h := by
  obtain ⟨p, hp, hp1, hp2⟩ := create_spec w v h hu
  obtain ⟨q, hq, hq1, hq2⟩ := create_spec p.1 (Val.handle h) h rfl
  refine ⟨p, hp, hp1, q, hq, hq1, ?_⟩
  rcases hq2 p.2 with hcase | hcase
  · show q.1.refs p.2 = Val.handle h
    rw [hcase]
    exact hp1
  · exact hcase

/-- Witness for C2: create applied to the raw handle 0 of the sample
world, twice. -/
theorem C2_witness :
    Reference.unwrapReference w0 (Val.handle 0) = Val.handle 0
    ∧ ∃ p, Reference.create w0 (Val.handle 0) = some p
      ∧ Reference.unwrap p.1 p.2 = Val.handle 0
      ∧ ∃ q, Reference.create p.1 (Val.handle 0) = some q
        ∧ Reference.unwrap q.1 q.2 = Val.handle 0
        ∧ Reference.unwrap q.1 p.2 = Val.handle 0 :=
  ⟨rfl, C2_create_unwrap_roundtrip w0 (Val.handle 0) 0 rfl⟩
